import Mathlib

/-!
Verification of the statistical quality-engine of the six-sigma-black-belt
tool against its specification.

The Python sources compute with NumPy/pandas floating-point scalars.  We
embed those scalars as `PyF`: an exact rational, `+inf`, `-inf`, or `nan`,
with the IEEE-754 special-value rules NumPy follows (division by zero gives
a signed infinity or `nan`, never an exception; comparisons against `nan`
are false).  Rounding of finite values is idealised away: finite arithmetic
is exact rational arithmetic.

The SciPy externals `stats.norm.ppf`, `stats.norm.cdf`, `np.sqrt`, and the
three normality tests are irrational-valued library functions; every
definition that calls one takes it as an explicit function parameter, so
the theorems quantify over the external and state only what the repository
code itself guarantees.
-/

namespace SixSigma

/-- A Python/NumPy floating-point scalar: an exact finite rational,
positive infinity, negative infinity, or NaN. -/
inductive PyF where
  | num : ℚ → PyF
  | inf : PyF
  | ninf : PyF
  | nan : PyF
deriving DecidableEq, Repr

/-- IEEE addition as NumPy performs it (finite arithmetic exact). -/
def PyF.add : PyF → PyF → PyF
  | nan, _ => nan
  | _, nan => nan
  | num a, num b => num (a + b)
  | num _, inf => inf
  | num _, ninf => ninf
  | inf, num _ => inf
  | inf, inf => inf
  | inf, ninf => nan
  | ninf, num _ => ninf
  | ninf, inf => nan
  | ninf, ninf => ninf

/-- IEEE subtraction as NumPy performs it. -/
def PyF.sub : PyF → PyF → PyF
  | nan, _ => nan
  | _, nan => nan
  | num a, num b => num (a - b)
  | num _, inf => ninf
  | num _, ninf => inf
  | inf, num _ => inf
  | inf, inf => nan
  | inf, ninf => inf
  | ninf, num _ => ninf
  | ninf, inf => ninf
  | ninf, ninf => nan

/-- IEEE multiplication as NumPy performs it. -/
def PyF.mul : PyF → PyF → PyF
  | nan, _ => nan
  | _, nan => nan
  | num a, num b => num (a * b)
  | num a, inf => if 0 < a then inf else if a < 0 then ninf else nan
  | num a, ninf => if 0 < a then ninf else if a < 0 then inf else nan
  | inf, num b => if 0 < b then inf else if b < 0 then ninf else nan
  | ninf, num b => if 0 < b then ninf else if b < 0 then inf else nan
  | inf, inf => inf
  | inf, ninf => ninf
  | ninf, inf => ninf
  | ninf, ninf => inf

/-- IEEE division as NumPy performs it: a finite value divided by zero is a
signed infinity (or `nan` for `0/0`); no exception is ever raised.  This is
the behaviour of `np.float64` division, which is what every division in the
capability code performs (pandas `.std()`/`.mean()` return `np.float64`). -/
def PyF.div : PyF → PyF → PyF
  | nan, _ => nan
  | _, nan => nan
  | num a, num b =>
      if b = 0 then (if 0 < a then inf else if a < 0 then ninf else nan)
      else num (a / b)
  | num _, inf => num 0
  | num _, ninf => num 0
  | inf, num b => if 0 ≤ b then inf else ninf
  | ninf, num b => if 0 ≤ b then ninf else inf
  | inf, inf => nan
  | inf, ninf => nan
  | ninf, inf => nan
  | ninf, ninf => nan

/-- IEEE strict `<`: any comparison involving NaN is false. -/
def PyF.lt : PyF → PyF → Bool
  | nan, _ => false
  | _, nan => false
  | num a, num b => a < b
  | num _, inf => true
  | num _, ninf => false
  | inf, _ => false
  | ninf, ninf => false
  | ninf, _ => true

/-- IEEE `≤`: any comparison involving NaN is false. -/
def PyF.le : PyF → PyF → Bool
  | nan, _ => false
  | _, nan => false
  | num a, num b => a ≤ b
  | num _, inf => true
  | num _, ninf => false
  | inf, inf => true
  | inf, _ => false
  | ninf, _ => true

/-- IEEE `≥`. -/
def PyF.ge (a b : PyF) : Bool := PyF.le b a

/-- Python's builtin `min(a, b)`: returns `b` iff `b < a`, else `a`; hence
`min(nan, x) = nan` but `min(x, nan) = x`. -/
def PyF.pymin (a b : PyF) : PyF := if PyF.lt b a then b else a

/-- pandas `Series.mean()`: NaN on an empty series, otherwise the exact
average. -/
def pfMean (xs : List ℚ) : PyF :=
  if xs.length = 0 then .nan else .num (xs.sum / xs.length)

/-- pandas `Series.std(ddof=d)`: NaN when the length does not exceed the
`ddof` divisor adjustment, else `sqrt(Σ(x−m)² / (n−d))`.  The square root
is NumPy's and is passed in as a function parameter. -/
def pfStd (sqrt : ℚ → ℚ) (ddof : ℕ) (xs : List ℚ) : PyF :=
  if xs.length ≤ ddof then .nan
  else
    .num (sqrt (((xs.map (fun x => (x - xs.sum / xs.length) ^ 2)).sum) /
      ((xs.length - ddof : ℕ) : ℚ)))

/-- `np.sqrt` lifted to `PyF`: negative finite inputs give NaN. -/
def pfSqrt (sqrt : ℚ → ℚ) : PyF → PyF
  | .num q => if q < 0 then .nan else .num (sqrt q)
  | .inf => .inf
  | .ninf => .nan
  | .nan => .nan

/-- `calculate_sigma_level` from six_sigma_encyclopedia.py (lines 216-223):
`0` when `dpmo >= 1000000`, `6` when `dpmo <= 0`, else
`stats.norm.ppf(1 - dpmo/1000000) + 1.5`.  `ppf` is SciPy's probit. -/
def calculate_sigma_level (ppf : PyF → PyF) (dpmo : PyF) : PyF :=
  if dpmo.ge (.num 1000000) then .num 0
  else if dpmo.le (.num 0) then .num 6
  else (ppf ((PyF.num 1).sub (dpmo.div (.num 1000000)))).add (.num (3/2))

/-- The sigma-level variant of six_sigma_app.py (lines 476-479):
`0` when `dpmo >= 933193`, else `stats.norm.ppf(1 - dpmo/1_000_000) + 1.5`.
There is no special branch for `dpmo <= 0`. -/
def sigma_level_app (ppf : PyF → PyF) (dpmo : PyF) : PyF :=
  if dpmo.ge (.num 933193) then .num 0
  else (ppf ((PyF.num 1).sub (dpmo.div (.num 1000000)))).add (.num (3/2))

/-- The sigma-level variant of complete_dmaic_system.py (line 1168, which
overwrites line 1167): `stats.norm.ppf(1 - dpmo/1_000_000) + 1.5` when
`dpmo < 933193`, else `0`. -/
def sigma_level_dmaic (ppf : PyF → PyF) (dpmo : PyF) : PyF :=
  if dpmo.lt (.num 933193) then
    (ppf ((PyF.num 1).sub (dpmo.div (.num 1000000)))).add (.num (3/2))
  else .num 0

/-- `calculate_dpmo_from_sigma` from six_sigma_encyclopedia.py (lines
225-227): `(1 - stats.norm.cdf(sigma - 1.5)) * 1000000`. -/
def calculate_dpmo_from_sigma (cdf : PyF → PyF) (sigma : PyF) : PyF :=
  ((PyF.num 1).sub (cdf (sigma.sub (.num (3/2))))).mul (.num 1000000)

/-- The dictionary returned by `calculate_process_capability`
(six_sigma_encyclopedia.py lines 229-273).  The `yield` key is rendered
`yield_pct` (keyword clash). -/
structure CapabilityResult where
  mean : PyF
  std : PyF
  cp : PyF
  cpu : PyF
  cpl : PyF
  cpk : PyF
  pp : PyF
  ppu : PyF
  ppl : PyF
  ppk : PyF
  cpm : Option PyF
  defects : ℕ
  dpmo : PyF
  sigma_level : PyF
  yield_pct : PyF
deriving DecidableEq, Repr

/-- `calculate_process_capability(data, lsl, usl, target=None)` from
six_sigma_encyclopedia.py lines 229-273, verbatim: pandas mean and std
(ddof=1 short-term, ddof=0 long-term), the cp/cpu/cpl/cpk and pp/ppu/ppl/ppk
ratios, the out-of-spec count with strict `<`/`>` comparisons, DPMO,
`calculate_sigma_level`, the optional `cpm` (guarded by Python truthiness of
`target`, so `target=0` behaves like `None`), and the yield percentage.
The function performs no length validation and has no raise path: every
division is NumPy scalar division. -/
def calculate_process_capability (sqrt : ℚ → ℚ) (ppf : PyF → PyF)
    (data : List ℚ) (lsl usl : ℚ) (target : Option ℚ) : CapabilityResult :=
  let m := pfMean data
  let s := pfStd sqrt 1 data
  let sPop := pfStd sqrt 0 data
  let cp := ((PyF.num usl).sub (.num lsl)).div ((PyF.num 6).mul s)
  let cpu := ((PyF.num usl).sub m).div ((PyF.num 3).mul s)
  let cpl := (m.sub (.num lsl)).div ((PyF.num 3).mul s)
  let cpk := PyF.pymin cpu cpl
  let pp := ((PyF.num usl).sub (.num lsl)).div ((PyF.num 6).mul sPop)
  let ppu := ((PyF.num usl).sub m).div ((PyF.num 3).mul sPop)
  let ppl := (m.sub (.num lsl)).div ((PyF.num 3).mul sPop)
  let ppk := PyF.pymin ppu ppl
  let defects := data.countP (fun x => decide (x < lsl ∨ usl < x))
  let dpmo : PyF :=
    if data.length = 0 then .nan
    else .num ((defects : ℚ) / (data.length : ℚ) * 1000000)
  let sigma := calculate_sigma_level ppf dpmo
  let cpm : Option PyF :=
    match target with
    | some t =>
        if t = 0 then none
        else some (cp.div (pfSqrt sqrt ((PyF.num 1).add
          (((m.sub (.num t)).div s).mul ((m.sub (.num t)).div s)))))
    | none => none
  let yld := ((PyF.num 1).sub (dpmo.div (.num 1000000))).mul (.num 100)
  { mean := m, std := s, cp := cp, cpu := cpu, cpl := cpl, cpk := cpk,
    pp := pp, ppu := ppu, ppl := ppl, ppk := ppk, cpm := cpm,
    defects := defects, dpmo := dpmo, sigma_level := sigma,
    yield_pct := yld }

/-- The dictionary returned by `check_normality`
(six_sigma_encyclopedia.py lines 296-320). -/
structure NormalityResult where
  anderson_stat : ℚ
  anderson_critical : ℚ
  anderson_normal : Bool
  shapiro_stat : Option ℚ
  shapiro_p : Option ℚ
  shapiro_normal : Option Bool
  ks_stat : ℚ
  ks_p : ℚ
  ks_normal : Bool
deriving DecidableEq, Repr

/-- `check_normality(data)` from six_sigma_encyclopedia.py lines 296-320.
The three SciPy tests are function parameters returning (statistic, second
value): for `anderson` the second component is the 5%-level critical value
`critical_values[2]`, for `shapiro` and `kstest` it is the p-value.
Shapiro-Wilk runs only when `len(data) < 5000`.  The source computes
`shapiro_normal` as the Python expression
`shapiro_p > 0.05 if shapiro_p else None`, i.e. the p-value's own
truthiness is the guard, so both `shapiro_p = None` and `shapiro_p = 0.0`
yield `None`. -/
def check_normality (anderson shapiro kstest : List ℚ → ℚ × ℚ)
    (data : List ℚ) : NormalityResult :=
  let ar := anderson data
  let sh : Option (ℚ × ℚ) :=
    if data.length < 5000 then some (shapiro data) else none
  let ks := kstest data
  { anderson_stat := ar.1
    anderson_critical := ar.2
    anderson_normal := decide (ar.1 < ar.2)
    shapiro_stat := sh.map Prod.fst
    shapiro_p := sh.map Prod.snd
    shapiro_normal :=
      match sh.map Prod.snd with
      | some p => if p = 0 then none else some (decide (p > 1/20))
      | none => none
    ks_stat := ks.1
    ks_p := ks.2
    ks_normal := decide (ks.2 > 1/20) }

/-- Exact mean of a rational list.  The I-MR code below only ever takes the
mean of series the theorems require to be non-empty (pandas returns NaN on
an empty series; that case is excluded by explicit length hypotheses). -/
def qMean (xs : List ℚ) : ℚ := xs.sum / xs.length

/-- `data.diff().abs()` with the leading NaN dropped, exactly the values
pandas `Series.mean()` then averages: the successive absolute
differences. -/
def movingRanges (data : List ℚ) : List ℚ :=
  List.zipWith (fun a b => |b - a|) data data.tail

/-- `ucl = mean + 2.66 * mr_mean` from six_sigma_app.py lines 653-656 and
complete_dmaic_system.py lines 1321-1324 (the two blocks are identical). -/
def imrUcl (data : List ℚ) : ℚ :=
  qMean data + 266/100 * qMean (movingRanges data)

/-- `lcl = mean - 2.66 * mr_mean` from the same two blocks. -/
def imrLcl (data : List ℚ) : ℚ :=
  qMean data - 266/100 * qMean (movingRanges data)

/-- The per-point flag of `out_of_control = (data > ucl) | (data < lcl)`
(six_sigma_app.py line 659, complete_dmaic_system.py line 1327): strict
comparisons on both sides. -/
def oocFlag (data : List ℚ) (x : ℚ) : Bool :=
  decide (x > imrUcl data) || decide (x < imrLcl data)

/-- The boolean series `out_of_control` itself. -/
def out_of_control (data : List ℚ) : List Bool :=
  data.map (oocFlag data)

/-- `check_western_electric_rules(data, mean, ucl, lcl)` from
complete_dmaic_system.py lines 435-469.  Each appended message is embedded
as the pair (rule number, the point number interpolated into the message):
Rule 2 windows `data[i:i+3]` report `i+3`, Rule 3 windows `data[i:i+5]`
report `i+5`, Rule 4 windows `data[i:i+8]` report `i+8`; the reported
number is thus the 1-based position of the last point of the window.  The
violation lists are concatenated in source order (rule 2, then 3, then 4).
Python's `range(len(data) - k)` over a negative argument is empty, matching
truncated `Nat` subtraction. -/
def check_western_electric_rules (data : List ℚ) (mean ucl lcl : ℚ) :
    List (ℕ × ℕ) :=
  let sigma := (ucl - mean) / 3
  let zone_a_upper := mean + 2 * sigma
  let zone_a_lower := mean - 2 * sigma
  let zone_b_upper := mean + sigma
  let zone_b_lower := mean - sigma
  let rule2 := (List.range (data.length - 2)).filterMap (fun i =>
    let window := (data.drop i).take 3
    if 2 ≤ window.countP (fun x => decide (x > zone_a_upper ∨ x < zone_a_lower))
    then some (2, i + 3) else none)
  let rule3 := (List.range (data.length - 4)).filterMap (fun i =>
    let window := (data.drop i).take 5
    if 4 ≤ window.countP (fun x => decide (x > zone_b_upper)) ∨
        4 ≤ window.countP (fun x => decide (x < zone_b_lower))
    then some (3, i + 5) else none)
  let rule4 := (List.range (data.length - 7)).filterMap (fun i =>
    let window := (data.drop i).take 8
    if window.all (fun x => decide (x > mean)) ∨
        window.all (fun x => decide (x < mean))
    then some (4, i + 8) else none)
  rule2 ++ rule3 ++ rule4

/-- The P-chart quantities computed inline in six_sigma_app.py lines
814-819 and six_sigma_dmaic_mentor.py lines 938-943 (identical blocks). -/
structure PChartLimits where
  p_bar : ℚ
  n_bar : ℚ
  ucl_p : ℚ
  lcl_p : ℚ
deriving DecidableEq, Repr

/-- The P-chart computation from those two blocks, verbatim:
`df['proportion'] = df[defect_col] / df[opportunity_col]` (element-wise),
`p_bar = df['proportion'].mean()` (the mean of the per-row proportions),
`n_bar = df[opportunity_col].mean()`,
`ucl_p = p_bar + 3 * np.sqrt(p_bar * (1 - p_bar) / n_bar)`,
`lcl_p = max(0, p_bar - 3 * np.sqrt(p_bar * (1 - p_bar) / n_bar))`.
NumPy's square root is a function parameter. -/
def p_chart (sqrt : ℚ → ℚ) (defects opportunities : List ℚ) : PChartLimits :=
  let proportions := List.zipWith (· / ·) defects opportunities
  let p_bar := qMean proportions
  let n_bar := qMean opportunities
  { p_bar := p_bar
    n_bar := n_bar
    ucl_p := p_bar + 3 * sqrt (p_bar * (1 - p_bar) / n_bar)
    lcl_p := max 0 (p_bar - 3 * sqrt (p_bar * (1 - p_bar) / n_bar)) }

/-- The pooled proportion the specification describes for the P-chart
center line: `total_defects / total_opportunities`.  Modelled from the
spec's words, for comparison against what the source computes. -/
def pooledProportion (defects opportunities : List ℚ) : ℚ :=
  defects.sum / opportunities.sum

/-- The dictionary returned by `interpret_financial_results`
(complete_dmaic_system.py lines 749-796). -/
structure FinancialVerdict where
  roi_rating : String
  roi_meaning : String
  payback_rating : String
  npv_rating : String
  overall_recommendation : String
deriving DecidableEq, Repr

/-- `interpret_financial_results(roi, payback_months, npv)` from
complete_dmaic_system.py lines 749-796, verbatim. -/
def interpret_financial_results (roi payback_months npv : ℚ) :
    FinancialVerdict :=
  let rr :=
    if roi ≥ 300 then
      ("Outstanding", "Exceptional return - project should be fast-tracked")
    else if roi ≥ 200 then
      ("Excellent", "Very strong business case - high priority")
    else if roi ≥ 100 then
      ("Very Good", "Solid business case - proceed with confidence")
    else if roi ≥ 50 then
      ("Good", "Acceptable return - typical for Six Sigma projects")
    else if roi ≥ 0 then
      ("Marginal",
        "Positive but low return - consider if strategic value exists")
    else
      ("Negative",
        "Project may not be financially viable - reconsider scope or approach")
  let pr :=
    if payback_months ≤ 6 then "Very Fast"
    else if payback_months ≤ 12 then "Fast"
    else if payback_months ≤ 24 then "Moderate"
    else "Slow"
  let nr :=
    if npv > 100000 then "Highly Positive"
    else if npv > 0 then "Positive"
    else "Negative"
  { roi_rating := rr.1
    roi_meaning := rr.2
    payback_rating := pr
    npv_rating := nr
    overall_recommendation :=
      if roi ≥ 100 ∧ payback_months ≤ 12 then
        "APPROVED - Strong Business Case"
      else if roi ≥ 50 then "CONDITIONAL APPROVAL - Review strategic value"
      else "NOT RECOMMENDED - Weak financial case" }

/-- The `project_costs` dictionary of `calculate_cost_benefit_analysis`
(complete_dmaic_system.py lines 719-726). -/
def projectCosts : List (String × ℚ) :=
  [("black_belt_time", 40000), ("team_time", 20000), ("training", 5000),
   ("equipment_tools", 10000), ("consulting", 0), ("implementation", 15000)]

/-- The numeric fields of the dictionary returned by
`calculate_cost_benefit_analysis` (complete_dmaic_system.py lines
691-747). -/
structure CostBenefitResult where
  current_defects_per_year : ℚ
  improved_defects_per_year : ℚ
  defects_avoided : ℚ
  scrap_savings : ℚ
  rework_savings : ℚ
  warranty_savings : ℚ
  total_annual_savings : ℚ
  total_investment : ℚ
  roi_percent : ℚ
  payback_months : ℚ
  npv_5_year : ℚ
  verdict : FinancialVerdict
deriving DecidableEq, Repr

/-- `calculate_cost_benefit_analysis(current_performance,
improved_performance, volume_per_year)` from complete_dmaic_system.py lines
691-747, with the two performance dictionaries contributing only their
`'dpmo'` entries (the only keys the body reads).  Cost weights are the
source's `cost_per_defect` values (scrap 50 at 30%, rework 30 at 60%,
warranty 100 at 10%); `total_investment` sums the fixed `project_costs`
dictionary (90000); `payback_months` is the guarded expression
`(total_investment / total_annual_savings) * 12 if total_annual_savings > 0
else 999`; the NPV discounts five years at 10%.  The ROI division is by the
constant `total_investment = 90000`, so no division by zero can occur. -/
def calculate_cost_benefit_analysis
    (current_dpmo improved_dpmo volume_per_year : ℚ) : CostBenefitResult :=
  let current_defects_per_year := volume_per_year * (current_dpmo / 1000000)
  let improved_defects_per_year := volume_per_year * (improved_dpmo / 1000000)
  let defects_avoided := current_defects_per_year - improved_defects_per_year
  let scrap_savings := defects_avoided * 50 * (3/10)
  let rework_savings := defects_avoided * 30 * (6/10)
  let warranty_savings := defects_avoided * 100 * (1/10)
  let total_annual_savings := scrap_savings + rework_savings + warranty_savings
  let total_investment := (projectCosts.map Prod.snd).sum
  let roi := ((total_annual_savings - total_investment) / total_investment) * 100
  let payback_months :=
    if total_annual_savings > 0 then (total_investment / total_annual_savings) * 12
    else 999
  let npv := ((List.range 5).map
    (fun year => total_annual_savings / (1 + 1/10) ^ (year + 1))).sum -
    total_investment
  { current_defects_per_year := current_defects_per_year
    improved_defects_per_year := improved_defects_per_year
    defects_avoided := defects_avoided
    scrap_savings := scrap_savings
    rework_savings := rework_savings
    warranty_savings := warranty_savings
    total_annual_savings := total_annual_savings
    total_investment := total_investment
    roi_percent := roi
    payback_months := payback_months
    npv_5_year := npv
    verdict := interpret_financial_results roi payback_months npv }

/-- The dictionary returned by `calculate_financial_impact`
(six_sigma_app.py lines 332-356). -/
structure FinancialImpact where
  annual_savings : ℚ
  defects_avoided : ℚ
  investment : ℚ
  roi : ℚ
  payback_months : ℚ
deriving DecidableEq, Repr

/-- `calculate_financial_impact(current_dpmo, target_dpmo, annual_volume)`
from six_sigma_app.py lines 332-356, verbatim: fixed `cost_per_defect = 75`
and `project_investment = 50000`; the ROI division is guarded by
`if project_investment > 0`, and `payback_months` by
`if annual_savings > 0 ... else 999`. -/
def calculate_financial_impact
    (current_dpmo target_dpmo annual_volume : ℚ) : FinancialImpact :=
  let cost_per_defect : ℚ := 75
  let current_defects := annual_volume * (current_dpmo / 1000000)
  let target_defects := annual_volume * (target_dpmo / 1000000)
  let defects_avoided := current_defects - target_defects
  let annual_savings := defects_avoided * cost_per_defect
  let project_investment : ℚ := 50000
  let roi :=
    if project_investment > 0 then
      ((annual_savings - project_investment) / project_investment) * 100
    else 0
  let payback_months :=
    if annual_savings > 0 then project_investment / annual_savings * 12
    else 999
  { annual_savings := annual_savings
    defects_avoided := defects_avoided
    investment := project_investment
    roi := roi
    payback_months := payback_months }

/-! ## Helper lemmas -/

/-- Adding and then subtracting the same finite value is the identity on
every `PyF`, including the infinities and NaN. -/
lemma PyF.add_num_sub_num (x : PyF) (c : ℚ) :
    (x.add (.num c)).sub (.num c) = x := by
  cases x <;> simp [PyF.add, PyF.sub]

/-- Every element of a moving-range series is non-negative. -/
lemma movingRanges_nonneg (data : List ℚ) :
    ∀ y ∈ movingRanges data, 0 ≤ y := by
  unfold movingRanges
  generalize data.tail = t
  induction data generalizing t with
  | nil => simp
  | cons a l ih =>
    cases t with
    | nil => simp
    | cons b t' =>
      intro y hy
      rcases List.mem_cons.mp hy with h | h
      · rw [h]; exact abs_nonneg _
      · exact ih t' y h

/-- The mean of a moving-range series is non-negative. -/
lemma qMean_movingRanges_nonneg (data : List ℚ) :
    0 ≤ qMean (movingRanges data) := by
  unfold qMean
  exact div_nonneg (List.sum_nonneg (movingRanges_nonneg data)) (by positivity)

/-- Filtering a `filterMap` for rule id 4 gives nothing when the producing
function never emits rule id 4. -/
lemma filter_four_of_filterMap_eq_nil (F : ℕ → Option (ℕ × ℕ)) (l : List ℕ)
    (hF : ∀ i x, F i = some x → x.1 ≠ 4) :
    (l.filterMap F).filter (fun p => p.1 == 4) = [] := by
  rw [List.filter_eq_nil_iff]
  intro x hx
  rcases List.mem_filterMap.mp hx with ⟨i, _, hfi⟩
  simpa using hF i x hfi

/-- Mean of a constant list. -/
lemma qMean_replicate (n : ℕ) (v : ℚ) (hn : n ≠ 0) :
    qMean (List.replicate n v) = v := by
  unfold qMean
  rw [List.sum_replicate, nsmul_eq_mul, List.length_replicate]
  field_simp

/-- Element-wise division of a list by a constant list of equal length. -/
lemma zipWith_div_replicate (defects : List ℚ) (v : ℚ) :
    List.zipWith (· / ·) defects (List.replicate defects.length v) =
      defects.map (· / v) := by
  induction defects with
  | nil => rfl
  | cons a l ih => simp [List.replicate_succ, ih]

/-- Sum of a list divided element-wise by a constant. -/
lemma sum_map_div (l : List ℚ) (v : ℚ) :
    (l.map (· / v)).sum = l.sum / v := by
  induction l with
  | nil => simp
  | cons a l ih => rw [List.map_cons, List.sum_cons, List.sum_cons, ih,
      div_add_div_same]

/-! ## C1: boundary values of the sigma-from-DPMO conversions -/

/-- C1 counterexample.  The claim asserts that every source variant of the
conversion returns exactly 6.0 at `dpmo = 0`.  The six_sigma_app.py variant
(and the identical complete_dmaic_system.py one) has no `dpmo <= 0` branch:
at `dpmo = 0` it returns `stats.norm.ppf(1) + 1.5`.  SciPy's probit at 1 is
`+inf`, so the returned value is `+inf`, not 6; and for no real-valued
probit stand-in returning 0 does it equal 6 either. -/
theorem sigma_level_app_zero_dpmo_not_six :
    sigma_level_app (fun _ => .inf) (.num 0) = PyF.inf ∧
    sigma_level_app (fun _ => .num 0) (.num 0) = PyF.num (3/2) ∧
    PyF.inf ≠ PyF.num 6 ∧ PyF.num (3/2) ≠ PyF.num 6 := by
  refine ⟨?_, ?_, by simp, by simp; norm_num⟩ <;>
    norm_num [sigma_level_app, PyF.ge, PyF.le, PyF.div, PyF.sub, PyF.add]

/-- C1 (amended).  All three variants return 0 for `dpmo >= 1,000,000`; the
encyclopedia variant returns 6 for `dpmo <= 0`; but the app and dmaic
variants return 0 exactly when `dpmo >= 933193`, and below that threshold
(in particular for every `dpmo <= 0`) they return
`ppf(1 - dpmo/1e6) + 1.5`, not the constant 6. -/
theorem sigma_level_boundary_values :
    (∀ (ppf : PyF → PyF) (d : ℚ), 1000000 ≤ d →
      calculate_sigma_level ppf (.num d) = .num 0) ∧
    (∀ (ppf : PyF → PyF) (d : ℚ), d ≤ 0 →
      calculate_sigma_level ppf (.num d) = .num 6) ∧
    (∀ (ppf : PyF → PyF) (d : ℚ), 933193 ≤ d →
      sigma_level_app ppf (.num d) = .num 0 ∧
      sigma_level_dmaic ppf (.num d) = .num 0) ∧
    (∀ (ppf : PyF → PyF) (d : ℚ), d < 933193 →
      sigma_level_app ppf (.num d) =
        (ppf (.num (1 - d / 1000000))).add (.num (3/2)) ∧
      sigma_level_dmaic ppf (.num d) = sigma_level_app ppf (.num d)) := by
  refine ⟨?_, ?_, ?_, ?_⟩
  · intro ppf d h
    simp [calculate_sigma_level, PyF.ge, PyF.le, h]
  · intro ppf d h
    have h1 : ¬ (1000000 : ℚ) ≤ d := by linarith
    simp [calculate_sigma_level, PyF.ge, PyF.le, h, h1]
  · intro ppf d h
    have h1 : ¬ d < 933193 := not_lt.mpr h
    constructor
    · simp [sigma_level_app, PyF.ge, PyF.le, h]
    · simp [sigma_level_dmaic, PyF.lt, h1]
  · intro ppf d h
    have h1 : ¬ (933193 : ℚ) ≤ d := not_le.mpr h
    have h2 : (1000000 : ℚ) ≠ 0 := by norm_num
    constructor
    · simp [sigma_level_app, PyF.ge, PyF.le, h1, PyF.div, PyF.sub, h2]
    · simp [sigma_level_dmaic, sigma_level_app, PyF.ge, PyF.le, PyF.lt, h, h1]

/-- Witness for `sigma_level_boundary_values` at concrete inputs. -/
theorem sigma_level_boundary_values_witness :
    calculate_sigma_level (fun _ => .num 0) (.num 1000000) = .num 0 ∧
    calculate_sigma_level (fun _ => .num 0) (.num 0) = .num 6 ∧
    sigma_level_app (fun _ => .num 0) (.num 933193) = .num 0 ∧
    sigma_level_dmaic (fun _ => .num 0) (.num 933193) = .num 0 ∧
    sigma_level_app (fun _ => .num 0) (.num 66807) =
      (PyF.num 0).add (.num (3/2)) ∧
    sigma_level_dmaic (fun _ => .num 0) (.num 66807) =
      sigma_level_app (fun _ => .num 0) (.num 66807) :=
  ⟨sigma_level_boundary_values.1 _ _ (by norm_num),
   sigma_level_boundary_values.2.1 _ _ (by norm_num),
   (sigma_level_boundary_values.2.2.1 _ _ (by norm_num)).1,
   (sigma_level_boundary_values.2.2.1 _ _ (by norm_num)).2,
   (sigma_level_boundary_values.2.2.2 _ _ (by norm_num)).1,
   (sigma_level_boundary_values.2.2.2 _ _ (by norm_num)).2⟩

/-! ## C2: the two conversions are inverses on (0, 1,000,000) -/

/-- C2 (confirmed).  For any probit/CDF pair that are inverse on (0, 1)
(as SciPy's `norm.ppf`/`norm.cdf` are), the composition
`dpmo_from_sigma(sigma_from_dpmo(dpmo))` returns exactly `dpmo` for every
`dpmo` strictly between 0 and 1,000,000; in particular the round trip is
within 1e-3 relative tolerance. -/
theorem dpmo_sigma_roundtrip :
    ∀ (cdf ppf : PyF → PyF),
      (∀ p : ℚ, 0 < p → p < 1 → cdf (ppf (.num p)) = .num p) →
      ∀ d : ℚ, 0 < d → d < 1000000 →
        calculate_dpmo_from_sigma cdf (calculate_sigma_level ppf (.num d)) =
          .num d ∧
        ∀ r : ℚ,
          calculate_dpmo_from_sigma cdf (calculate_sigma_level ppf (.num d)) =
            .num r → |r - d| ≤ d * (1/1000) := by
  intro cdf ppf hinv d hd0 hd1
  have h1 : ¬ (1000000 : ℚ) ≤ d := by linarith
  have h2 : ¬ d ≤ 0 := by linarith
  have h3 : (1000000 : ℚ) ≠ 0 := by norm_num
  have hs : calculate_sigma_level ppf (.num d) =
      (ppf (.num (1 - d / 1000000))).add (.num (3/2)) := by
    simp [calculate_sigma_level, PyF.ge, PyF.le, h1, h2, PyF.div, PyF.sub, h3]
  have hp0 : 0 < 1 - d / 1000000 := by
    rw [sub_pos]
    rw [div_lt_one (by norm_num)]
    exact hd1
  have hp1 : 1 - d / 1000000 < 1 := by
    have : 0 < d / 1000000 := by positivity
    linarith
  have key : calculate_dpmo_from_sigma cdf
      (calculate_sigma_level ppf (.num d)) = .num d := by
    rw [hs]
    unfold calculate_dpmo_from_sigma
    rw [PyF.add_num_sub_num, hinv _ hp0 hp1]
    simp only [PyF.sub, PyF.mul]
    congr 1
    ring
  refine ⟨key, ?_⟩
  intro r hr
  rw [key] at hr
  have : d = r := by injection hr
  rw [← this]
  simp only [sub_self, abs_zero]
  positivity

/-- Witness for `dpmo_sigma_roundtrip`: with the identity stand-ins for the
probit/CDF pair (which are inverse on (0, 1)), the round trip at
`dpmo = 500000` is exact. -/
theorem dpmo_sigma_roundtrip_witness :
    calculate_dpmo_from_sigma id (calculate_sigma_level id (.num 500000)) =
      .num 500000 :=
  (dpmo_sigma_roundtrip id id (fun _ _ _ => rfl) 500000 (by norm_num)
    (by norm_num)).1

/-! ## C3: the P-chart center line -/

/-- C3 counterexample.  With defect counts [0, 1] and opportunity counts
[1, 2], the source computes `p_bar = mean([0/1, 1/2]) = 1/4`, while the
pooled proportion the claim asserts is `(0+1)/(1+2) = 1/3`. -/
theorem p_chart_center_not_pooled :
    (p_chart (fun _ => 0) [0, 1] [1, 2]).p_bar = 1/4 ∧
    pooledProportion [0, 1] [1, 2] = 1/3 ∧ (1/4 : ℚ) ≠ 1/3 := by
  norm_num [p_chart, qMean, pooledProportion]

/-- C3 (amended).  The P-chart center line is the mean of the per-row
proportions `defects[i] / opportunities[i]` — not the pooled proportion —
and the control limits are `p̄ ± 3·sqrt(p̄(1−p̄)/n̄)` around it with the
lower limit clamped at 0; the two center-line conventions coincide exactly
when all opportunity counts are equal. -/
theorem p_chart_per_row_center_and_limits :
    ∀ (sqrt : ℚ → ℚ) (defects opportunities : List ℚ),
      (p_chart sqrt defects opportunities).p_bar =
        qMean (List.zipWith (· / ·) defects opportunities) ∧
      (p_chart sqrt defects opportunities).ucl_p =
        (p_chart sqrt defects opportunities).p_bar +
          3 * sqrt ((p_chart sqrt defects opportunities).p_bar *
            (1 - (p_chart sqrt defects opportunities).p_bar) /
            (p_chart sqrt defects opportunities).n_bar) ∧
      (p_chart sqrt defects opportunities).lcl_p =
        max 0 ((p_chart sqrt defects opportunities).p_bar -
          3 * sqrt ((p_chart sqrt defects opportunities).p_bar *
            (1 - (p_chart sqrt defects opportunities).p_bar) /
            (p_chart sqrt defects opportunities).n_bar)) ∧
      (∀ v : ℚ, 0 < v → opportunities ≠ [] →
        defects.length = opportunities.length →
        (∀ o ∈ opportunities, o = v) →
        (p_chart sqrt defects opportunities).p_bar =
          pooledProportion defects opportunities) := by
  intro sqrt defects opportunities
  refine ⟨rfl, rfl, rfl, ?_⟩
  intro v hv hne hlen hall
  have hrep : opportunities = List.replicate opportunities.length v :=
    List.eq_replicate_of_mem hall
  show qMean (List.zipWith (· / ·) defects opportunities) =
    pooledProportion defects opportunities
  rw [hrep, ← hlen, zipWith_div_replicate, pooledProportion, List.sum_replicate,
    nsmul_eq_mul, qMean, sum_map_div, List.length_map, hlen]
  rw [div_div, mul_comm]

/-- Witness for `p_chart_per_row_center_and_limits` at the specification's
own example (defects [5,5,5,5,5], opportunities [1000]×5, where the per-row
and pooled conventions agree). -/
theorem p_chart_per_row_center_and_limits_witness :
    (p_chart (fun _ => 0) [5, 5, 5, 5, 5]
        [1000, 1000, 1000, 1000, 1000]).p_bar =
      pooledProportion [5, 5, 5, 5, 5] [1000, 1000, 1000, 1000, 1000] :=
  (p_chart_per_row_center_and_limits (fun _ => 0) [5, 5, 5, 5, 5]
    [1000, 1000, 1000, 1000, 1000]).2.2.2 1000 (by norm_num) (by simp)
    (by simp) (by intro o ho; simpa using ho)

/-! ## C4: the what-if projection and targets below the current sigma -/

/-- C5 counterexample.  On the one-element sample [10] with LSL 8 and
USL 12 the capability computation does not fail: it returns a full
`CapabilityResult` (mean 10, NaN standard deviation, zero DPMO, sigma
level 6).  No `InsufficientDataError` or length check exists in the
code. -/
theorem capability_length_one_returns_result :
    (calculate_process_capability (fun _ => 0) (fun _ => .nan)
        [10] 8 12 none).std = PyF.nan ∧
    (calculate_process_capability (fun _ => 0) (fun _ => .nan)
        [10] 8 12 none).mean = PyF.num 10 ∧
    (calculate_process_capability (fun _ => 0) (fun _ => .nan)
        [10] 8 12 none).dpmo = PyF.num 0 ∧
    (calculate_process_capability (fun _ => 0) (fun _ => .nan)
        [10] 8 12 none).sigma_level = PyF.num 6 := by
  norm_num [calculate_process_capability, pfMean, pfStd, pfSqrt,
    calculate_sigma_level, PyF.add, PyF.sub, PyF.mul, PyF.div, PyF.lt,
    PyF.le, PyF.ge, PyF.pymin]

/-- C5 (amended).  The capability computation performs no length
validation: for every sample of length < 2 it still returns a
`CapabilityResult`, whose sample standard deviation field is NaN (pandas
`std(ddof=1)` of fewer than two points). -/
theorem capability_no_length_validation :
    ∀ (sqrt : ℚ → ℚ) (ppf : PyF → PyF) (data : List ℚ) (lsl usl : ℚ)
      (target : Option ℚ), data.length < 2 →
      (calculate_process_capability sqrt ppf data lsl usl target).std =
        PyF.nan := by
  intro sqrt ppf data lsl usl target h
  have h1 : data.length ≤ 1 := by omega
  simp [calculate_process_capability, pfStd, h1]

/-- Witness for `capability_no_length_validation` at a concrete
one-element sample. -/
theorem capability_no_length_validation_witness :
    (calculate_process_capability (fun _ => 1) (fun _ => .nan)
        [7] 0 1 none).std = PyF.nan :=
  capability_no_length_validation _ _ _ _ _ _ (by norm_num)

/-! ## C6: zero-variance samples -/

/-- C6 counterexample.  The claim quantifies over every constant sample
whose common value lies within the closed interval [LSL, USL].  At the
upper boundary — the constant sample [12, 12] with LSL 8 and USL 12 — the
code computes `cpu = (12 − 12)/0 = 0/0 = NaN`, and Python's
`min(cpu, cpl) = min(NaN, inf)` returns its first argument, so `cpk` is
NaN, not `+inf` (while `cp` is `+inf`). -/
theorem capability_zero_variance_at_usl_cpk_nan :
    (calculate_process_capability (fun _ => 0) (fun _ => .nan)
        [12, 12] 8 12 none).cpk = PyF.nan ∧
    (calculate_process_capability (fun _ => 0) (fun _ => .nan)
        [12, 12] 8 12 none).cp = PyF.inf ∧
    PyF.nan ≠ PyF.inf := by
  refine ⟨?_, ?_, by simp⟩ <;>
    norm_num [calculate_process_capability, pfMean, pfStd, pfSqrt,
      calculate_sigma_level, PyF.add, PyF.sub, PyF.mul, PyF.div, PyF.lt,
      PyF.le, PyF.ge, PyF.pymin]

/-- C6 (amended).  For every constant sample of length ≥ 2 whose common
value `v` satisfies `LSL ≤ v < USL` (strictly below the upper limit —
at `v = USL` the code yields `cpk = NaN`), the capability computation
raises nothing and returns `cp = +inf`, `cpk = +inf` and `dpmo = 0`
(with a square root mapping 0 to 0, as NumPy's does). -/
theorem capability_zero_variance_within_spec :
    ∀ (sqrt : ℚ → ℚ) (ppf : PyF → PyF) (v lsl usl : ℚ) (n : ℕ)
      (target : Option ℚ),
      2 ≤ n → sqrt 0 = 0 → lsl ≤ v → v < usl →
      (calculate_process_capability sqrt ppf (List.replicate n v)
          lsl usl target).cp = PyF.inf ∧
      (calculate_process_capability sqrt ppf (List.replicate n v)
          lsl usl target).cpk = PyF.inf ∧
      (calculate_process_capability sqrt ppf (List.replicate n v)
          lsl usl target).dpmo = PyF.num 0 := by
  intro sqrt ppf v lsl usl n target h2n hsqrt hlv hvu
  have hnn : (n : ℚ) ≠ 0 := Nat.cast_ne_zero.mpr (by omega)
  have hmv : (List.replicate n v).sum /
      (((List.replicate n v).length : ℕ) : ℚ) = v := by
    rw [List.sum_replicate, nsmul_eq_mul, List.length_replicate]
    exact mul_div_cancel_left₀ v hnn
  have hlen0 : ¬ (List.replicate n v).length = 0 := by simp; omega
  have hmean : pfMean (List.replicate n v) = .num v := by
    rw [pfMean, if_neg hlen0, hmv]
  have hlen1 : ¬ ((List.replicate n v).length ≤ 1) := by simp; omega
  have hstd : pfStd sqrt 1 (List.replicate n v) = .num 0 := by
    rw [pfStd, if_neg hlen1, List.map_replicate, hmv]
    simp only [sub_self, List.sum_replicate, smul_eq_mul, zero_div]
    norm_num [hsqrt]
  have hcount : (List.replicate n v).countP
      (fun x => decide (x < lsl ∨ usl < x)) = 0 := by
    rw [List.countP_replicate]
    simp [not_lt.mpr hlv, asymm hvu]
  have hUL : 0 < usl - lsl := by linarith
  have hUV : 0 < usl - v := by linarith
  have hcp : ((PyF.num usl).sub (.num lsl)).div
      ((PyF.num 6).mul (pfStd sqrt 1 (List.replicate n v))) = PyF.inf := by
    rw [hstd]
    simp [PyF.sub, PyF.mul, PyF.div, hUL]
  have hcpu : ((PyF.num usl).sub (pfMean (List.replicate n v))).div
      ((PyF.num 3).mul (pfStd sqrt 1 (List.replicate n v))) = PyF.inf := by
    rw [hstd, hmean]
    simp [PyF.sub, PyF.mul, PyF.div, hUV]
  have hcpk : PyF.pymin
      (((PyF.num usl).sub (pfMean (List.replicate n v))).div
        ((PyF.num 3).mul (pfStd sqrt 1 (List.replicate n v))))
      (((pfMean (List.replicate n v)).sub (.num lsl)).div
        ((PyF.num 3).mul (pfStd sqrt 1 (List.replicate n v)))) = PyF.inf := by
    rw [hcpu, hstd, hmean]
    rcases eq_or_lt_of_le hlv with heq | hlt
    · subst heq
      simp [PyF.sub, PyF.mul, PyF.div, PyF.pymin, PyF.lt]
    · have hVL : 0 < v - lsl := by linarith
      simp [PyF.sub, PyF.mul, PyF.div, hVL, PyF.pymin, PyF.lt]
  refine ⟨?_, ?_, ?_⟩
  · show ((PyF.num usl).sub (.num lsl)).div
      ((PyF.num 6).mul (pfStd sqrt 1 (List.replicate n v))) = PyF.inf
    exact hcp
  · show PyF.pymin _ _ = PyF.inf
    exact hcpk
  · show (if (List.replicate n v).length = 0 then PyF.nan
      else PyF.num ((((List.replicate n v).countP
        (fun x => decide (x < lsl ∨ usl < x)) : ℕ) : ℚ) /
        (((List.replicate n v).length : ℕ) : ℚ) * 1000000)) = PyF.num 0
    rw [if_neg hlen0, hcount]
    norm_num

/-- Witness for `capability_zero_variance_within_spec` at the
specification's example: all values 10.0, LSL 8, USL 12, two points. -/
theorem capability_zero_variance_within_spec_witness :
    (calculate_process_capability (fun _ => 0) (fun _ => .nan)
        (List.replicate 2 (10 : ℚ)) 8 12 none).cp = PyF.inf ∧
    (calculate_process_capability (fun _ => 0) (fun _ => .nan)
        (List.replicate 2 (10 : ℚ)) 8 12 none).cpk = PyF.inf ∧
    (calculate_process_capability (fun _ => 0) (fun _ => .nan)
        (List.replicate 2 (10 : ℚ)) 8 12 none).dpmo = PyF.num 0 :=
  capability_zero_variance_within_spec (fun _ => 0) (fun _ => .nan) 10 8 12 2
    none (by norm_num) rfl (by norm_num) (by norm_num)

/-! ## C7: Western Electric Rule 4 -/

/-- C7 (confirmed).  Every 8-consecutive-point window lying entirely on one
side of the center line — all points strictly above it or all points
strictly below it — produces a Rule-4 report carrying the point number
`i + 8`: the 1-based position of the window's last point, i.e. 0-based
index `i + 7`.  And for every 9-point sequence whose first 8 points are
strictly above the center and whose 9th is strictly below it, the Rule-4
reports are exactly `[(4, 8)]`: one violation, anchored at the window's
last point (0-based index 7). -/
theorem western_electric_rule4 :
    (∀ (data : List ℚ) (mean ucl lcl : ℚ) (i : ℕ), i + 8 ≤ data.length →
      ((data.drop i).take 8).all (fun x => decide (x > mean)) = true ∨
        ((data.drop i).take 8).all (fun x => decide (x < mean)) = true →
      (4, i + 8) ∈ check_western_electric_rules data mean ucl lcl) ∧
    (∀ (a b c d e f g h k mean ucl lcl : ℚ),
      mean < a → mean < b → mean < c → mean < d → mean < e → mean < f →
      mean < g → mean < h → k < mean →
      (check_western_electric_rules [a, b, c, d, e, f, g, h, k]
          mean ucl lcl).filter (fun p => p.1 == 4) = [(4, 8)]) := by
  constructor
  · intro data mean ucl lcl i hlen hall
    simp only [check_western_electric_rules]
    refine List.mem_append_right _ ?_
    refine List.mem_filterMap.mpr ⟨i, List.mem_range.mpr (by omega), ?_⟩
    rw [if_pos hall]
  · intro a b c d e f g h k mean ucl lcl h1 h2 h3 h4 h5 h6 h7 h8 h9
    simp only [check_western_electric_rules]
    rw [List.filter_append, List.filter_append]
    rw [filter_four_of_filterMap_eq_nil _ _ (by
      intro i x hfi
      split at hfi
      · cases hfi; simp
      · cases hfi)]
    rw [filter_four_of_filterMap_eq_nil _ _ (by
      intro i x hfi
      split at hfi
      · cases hfi; simp
      · cases hfi)]
    have hrange : List.range ([a, b, c, d, e, f, g, h, k].length - 7) =
        [0, 1] := by rfl
    rw [hrange]
    simp only [List.filterMap_cons, List.filterMap_nil]
    have hw0 : (([a, b, c, d, e, f, g, h, k].drop 0).take 8) =
        [a, b, c, d, e, f, g, h] := rfl
    have hw1 : (([a, b, c, d, e, f, g, h, k].drop 1).take 8) =
        [b, c, d, e, f, g, h, k] := rfl
    rw [hw0, hw1]
    rw [if_pos (Or.inl (by simp [h1, h2, h3, h4, h5, h6, h7, h8]))]
    rw [if_neg (by
      simp only [List.all_cons, List.all_nil]
      push_neg
      constructor
      · intro hcon
        simp [asymm h9] at hcon
      · intro hcon
        simp [asymm h2] at hcon)]
    simp

/-- Witness for `western_electric_rule4`: eight 1s above center 0 followed
by one −1 below it, the mirrored all-below window of eight −1s followed by
one 1, and the exactly-one-report instance. -/
theorem western_electric_rule4_witness :
    (4, 8) ∈ check_western_electric_rules [1, 1, 1, 1, 1, 1, 1, 1, -1]
        0 3 (-3) ∧
    (4, 8) ∈ check_western_electric_rules [-1, -1, -1, -1, -1, -1, -1, -1, 1]
        0 3 (-3) ∧
    (check_western_electric_rules [1, 1, 1, 1, 1, 1, 1, 1, -1]
        0 3 (-3)).filter (fun p => p.1 == 4) = [(4, 8)] :=
  ⟨western_electric_rule4.1 [1, 1, 1, 1, 1, 1, 1, 1, -1] 0 3 (-3) 0
      (by norm_num) (Or.inl (by norm_num)),
   western_electric_rule4.1 [-1, -1, -1, -1, -1, -1, -1, -1, 1] 0 3 (-3) 0
      (by norm_num) (Or.inr (by norm_num)),
   western_electric_rule4.2 1 1 1 1 1 1 1 1 (-1) 0 3 (-3) (by norm_num)
      (by norm_num) (by norm_num) (by norm_num) (by norm_num) (by norm_num)
      (by norm_num) (by norm_num) (by norm_num)⟩

/-! ## C8: payback-month guards in both financial variants -/

/-- C8 (confirmed).  In both financial variants, `payback_months` equals
`total_investment / total_annual_savings × 12` when the annual savings are
strictly positive and equals the sentinel 999 otherwise; the guard means no
division by zero is ever evaluated (the ROI division divides by the
constant investment, 90000 resp. 50000, and in the app variant is itself
guarded). -/
theorem payback_months_guarded :
    ∀ (cd td vol cd2 td2 vol2 : ℚ),
      (0 < (calculate_cost_benefit_analysis cd td vol).total_annual_savings →
        (calculate_cost_benefit_analysis cd td vol).payback_months =
          (calculate_cost_benefit_analysis cd td vol).total_investment /
            (calculate_cost_benefit_analysis cd td vol).total_annual_savings *
            12) ∧
      ((calculate_cost_benefit_analysis cd td vol).total_annual_savings ≤ 0 →
        (calculate_cost_benefit_analysis cd td vol).payback_months = 999) ∧
      (0 < (calculate_financial_impact cd2 td2 vol2).annual_savings →
        (calculate_financial_impact cd2 td2 vol2).payback_months =
          (calculate_financial_impact cd2 td2 vol2).investment /
            (calculate_financial_impact cd2 td2 vol2).annual_savings * 12) ∧
      ((calculate_financial_impact cd2 td2 vol2).annual_savings ≤ 0 →
        (calculate_financial_impact cd2 td2 vol2).payback_months = 999) := by
  intro cd td vol cd2 td2 vol2
  refine ⟨?_, ?_, ?_, ?_⟩
  · intro hpos
    simp only [calculate_cost_benefit_analysis] at hpos ⊢
    rw [if_pos hpos]
  · intro hneg
    simp only [calculate_cost_benefit_analysis] at hneg ⊢
    rw [if_neg (not_lt.mpr hneg)]
  · intro hpos
    simp only [calculate_financial_impact] at hpos ⊢
    rw [if_pos hpos]
  · intro hneg
    simp only [calculate_financial_impact] at hneg ⊢
    rw [if_neg (not_lt.mpr hneg)]

/-- Witness for `payback_months_guarded`: the specification's example
(current DPMO 6210, target 233, volume 100000) has positive savings in the
dmaic variant; swapping current and target makes the app variant's savings
negative and yields the 999 sentinel. -/
theorem payback_months_guarded_witness :
    (calculate_cost_benefit_analysis 6210 233 100000).payback_months =
      (calculate_cost_benefit_analysis 6210 233 100000).total_investment /
        (calculate_cost_benefit_analysis 6210 233 100000).total_annual_savings *
        12 ∧
    (calculate_financial_impact 233 6210 100000).payback_months = 999 :=
  ⟨(payback_months_guarded 6210 233 100000 233 6210 100000).1
      (by norm_num [calculate_cost_benefit_analysis]),
   (payback_months_guarded 6210 233 100000 233 6210 100000).2.2.2
      (by norm_num [calculate_financial_impact])⟩

/-! ## C9: the Shapiro-Wilk verdict at a zero p-value -/

/-- C9 (confirmed).  When the Shapiro-Wilk test runs (sample shorter than
5000) and returns a p-value of exactly 0, the `shapiro_p` field records the
value 0 but the `shapiro_normal` verdict is `None`, not `False`: the source
guards the verdict with the truthiness of the p-value itself, so a
run-with-p-zero is indistinguishable from a not-run through that field. -/
theorem shapiro_zero_pvalue_verdict_none :
    ∀ (anderson shapiro kstest : List ℚ → ℚ × ℚ) (data : List ℚ),
      data.length < 5000 → (shapiro data).2 = 0 →
      (check_normality anderson shapiro kstest data).shapiro_p = some 0 ∧
      (check_normality anderson shapiro kstest data).shapiro_normal =
        none := by
  intro anderson shapiro kstest data hlen hp
  simp [check_normality, hlen, hp]

/-- Witness for `shapiro_zero_pvalue_verdict_none` with a concrete
three-point sample and a Shapiro stand-in returning p = 0. -/
theorem shapiro_zero_pvalue_verdict_none_witness :
    (check_normality (fun _ => (0, 0)) (fun _ => (1, 0)) (fun _ => (0, 1))
        [1, 2, 3]).shapiro_p = some 0 ∧
    (check_normality (fun _ => (0, 0)) (fun _ => (1, 0)) (fun _ => (0, 1))
        [1, 2, 3]).shapiro_normal = none :=
  shapiro_zero_pvalue_verdict_none _ _ _ [1, 2, 3] (by norm_num) rfl

/-! ## C10: strict inequalities in the out-of-control flags -/

/-- C10 (confirmed).  The out-of-control flag uses the strict comparisons
`value > UCL` and `value < LCL` (identically in both source variants), so
a point exactly equal to either limit is never flagged; and for a constant
sequence of length ≥ 2 the limits collapse onto the center
(`UCL = LCL = center = v`) and zero points are flagged. -/
theorem out_of_control_strict_inequalities :
    (∀ data : List ℚ, 2 ≤ data.length →
      imrLcl data ≤ imrUcl data ∧
      ∀ x ∈ data, (x = imrUcl data ∨ x = imrLcl data) →
        oocFlag data x = false) ∧
    (∀ (v : ℚ) (n : ℕ), 2 ≤ n →
      imrUcl (List.replicate n v) = v ∧
      imrLcl (List.replicate n v) = v ∧
      (out_of_control (List.replicate n v)).count true = 0) := by
  constructor
  · intro data _
    have hmr : 0 ≤ qMean (movingRanges data) := qMean_movingRanges_nonneg data
    have hle : imrLcl data ≤ imrUcl data := by
      unfold imrLcl imrUcl
      nlinarith
    refine ⟨hle, ?_⟩
    intro x _ hx
    rcases hx with hx | hx <;>
      simp [oocFlag, hx, not_lt_of_le hle, le_refl]
  · intro v n hn
    have hnn : n ≠ 0 := by omega
    have hmr : movingRanges (List.replicate n v) = List.replicate (n - 1) 0 := by
      unfold movingRanges
      rw [List.tail_replicate]
      have : List.replicate n v =
          List.replicate ((n - 1) + 1) v := by congr 1; omega
      rw [this, List.zipWith_replicate]
      simp
    have hqm : qMean (movingRanges (List.replicate n v)) = 0 := by
      rw [hmr]
      unfold qMean
      simp
    have hucl : imrUcl (List.replicate n v) = v := by
      unfold imrUcl
      rw [hqm, qMean_replicate n v hnn]
      ring
    have hlcl : imrLcl (List.replicate n v) = v := by
      unfold imrLcl
      rw [hqm, qMean_replicate n v hnn]
      ring
    refine ⟨hucl, hlcl, ?_⟩
    have hflag : oocFlag (List.replicate n v) v = false := by
      simp [oocFlag, hucl, hlcl]
    unfold out_of_control
    rw [List.map_replicate, hflag]
    simp [List.count_replicate]

/-- Witness for `out_of_control_strict_inequalities` on the constant
two-point sequence [10, 10]. -/
theorem out_of_control_strict_inequalities_witness :
    imrUcl (List.replicate 2 (10 : ℚ)) = 10 ∧
    (out_of_control (List.replicate 2 (10 : ℚ))).count true = 0 :=
  ⟨(out_of_control_strict_inequalities.2 10 2 (by norm_num)).1,
   (out_of_control_strict_inequalities.2 10 2 (by norm_num)).2.2⟩

end SixSigma
